import Mathlib

/-!
Shallow embedding of the Go package `client` (file `client.go`) and proofs
of the specified properties of `FetchData`.

Modelling choices, each traceable to the source:
* A Go `error` value built by `fmt.Errorf` is a message string together with
  an optional wrapped cause (`%w`); base errors have no cause.
* A response body (`resp.Body`, an `io.ReadCloser`) is modelled as the byte
  sequence the stream yields plus an optional read failure that `io.ReadAll`
  hits at the end (`io.ReadAll` reads the stream to exhaustion).
* `http.Response` is modelled by the fields `FetchData` can observe
  (`StatusCode`, `Body`) plus a `headers` field standing for all the fields
  it does not touch, so that non-interference is statable.
* `HTTPClient` is the interface `Get(url string) (*http.Response, error)`;
  as in the Go contract, exactly one of response / error is meaningful, so it
  is a function from the url to `Except`.
* `FetchData` returns the Go pair `([]byte, error)` as
  `Option (List Nat) × Option GoError` (`nil` slice = `none`), and in
  addition the trace of observable actions it performed (the `Get` call,
  body reads, body closes), so that call-count and resource-release claims
  are statable.  The `defer resp.Body.Close()` of line 49 places the close
  event at function exit on every path reached after a successful `Get`.
-/

/-- A Go `error` value as `FetchData` and its callers can build one:
either a base error carrying only an `Error()` message, or an error built
with `fmt.Errorf(text ++ "%w", cause)` wrapping a cause retrievable by
`errors.Unwrap`. -/
inductive GoError where
  | base (msg : String)
  | wrapped (text : String) (cause : GoError)
deriving DecidableEq, Repr

/-- The `Error()` message: a wrapping error's message is its format text
followed by the cause's message, as `fmt.Errorf` renders `%w`. -/
def GoError.msg : GoError → String
  | .base m => m
  | .wrapped t c => t ++ c.msg

/-- `errors.Unwrap`: the cause wrapped via `%w`, if any. -/
def GoError.unwrap : GoError → Option GoError
  | .base _ => none
  | .wrapped _ c => some c

/-- `fmt.Errorf(pre ++ "%w", e)`. -/
def wrapErr (pre : String) (e : GoError) : GoError :=
  .wrapped pre e

/-- The body stream of an `http.Response`: the bytes it yields, and an
optional failure that reading to exhaustion (`io.ReadAll`) runs into. -/
structure BodyStream where
  chunks : List Nat
  readErr : Option GoError
deriving DecidableEq, Repr

/-- `io.ReadAll(b)`: reads the whole stream; fails iff the stream fails. -/
def BodyStream.readAll (b : BodyStream) : Except GoError (List Nat) :=
  match b.readErr with
  | some e => .error e
  | none => .ok b.chunks

/-- The fields of `http.Response` relevant to `FetchData`, plus `headers`
standing in for every field the function never inspects. -/
structure Response where
  statusCode : Nat
  body : BodyStream
  headers : List (String × String)
deriving DecidableEq, Repr

/-- Observable actions of one `FetchData` call: the `Get` invocation on the
transport, reading the body stream, and closing the body stream. -/
inductive Event where
  | getCall (url : String)
  | readBody
  | closeBody
deriving DecidableEq, Repr

/-- Whether an event is a transport `Get` invocation. -/
def Event.isGet : Event → Bool
  | .getCall _ => true
  | _ => false

/-- The `HTTPClient` interface: `Get(url string) (*http.Response, error)`,
with exactly one of the pair meaningful per the Go contract. -/
def HTTPClient := String → Except GoError Response

/-- `Endpoint` constant of `client.go` (lines 11-15). -/
def Endpoint : String := "https://jsonplaceholder.typicode.com/posts"

/-- `http.StatusOK`. -/
def StatusOK : Nat := 200

/-- `FetchData(client HTTPClient) ([]byte, error)` of `client.go`
lines 43-63, instrumented with the trace of observable events.

Go source, step by step:
* `resp, err := client.Get(Endpoint)`; if `err != nil`, return
  `nil, fmt.Errorf("failed to fetch data: %w", err)` - no body exists yet,
  so no close happens.
* `defer resp.Body.Close()` - a single close at function return on every
  later path.
* if `resp.StatusCode != http.StatusOK`, return
  `nil, fmt.Errorf("unexpected status code: %d", resp.StatusCode)` without
  reading the body.
* `body, err := io.ReadAll(resp.Body)`; if `err != nil`, return
  `nil, fmt.Errorf("failed to read response body: %w", err)`.
* return `body, nil`. -/
def FetchData (client : HTTPClient) :
    (Option (List Nat) × Option GoError) × List Event :=
  match client Endpoint with
  | .error err =>
      ((none, some (wrapErr "failed to fetch data: " err)),
       [Event.getCall Endpoint])
  | .ok resp =>
      if resp.statusCode ≠ StatusOK then
        ((none, some (GoError.base
            ("unexpected status code: " ++ toString resp.statusCode))),
         [Event.getCall Endpoint, Event.closeBody])
      else
        match resp.body.readAll with
        | .error err =>
            ((none, some (wrapErr "failed to read response body: " err)),
             [Event.getCall Endpoint, Event.readBody, Event.closeBody])
        | .ok body =>
            ((some body, none),
             [Event.getCall Endpoint, Event.readBody, Event.closeBody])

/-- The `([]byte, error)` pair a call returns (trace stripped). -/
def FetchData.result (client : HTTPClient) : Option (List Nat) × Option GoError :=
  (FetchData client).1

/-- The event trace of a call. -/
def FetchData.trace (client : HTTPClient) : List Event :=
  (FetchData client).2

/-- A test-double transport answering every URL with the same canned
`Get` outcome, as the mocks in `client_test.go` do. -/
def cannedClient (r : Except GoError Response) : HTTPClient :=
  fun _ => r

/-- Agreement of two `Get` outcomes on everything `FetchData` is specified
to depend on: the error, the status code and the body stream - but not the
headers or any other response field. -/
def getAgree : Except GoError Response → Except GoError Response → Prop
  | .error e1, .error e2 => e1 = e2
  | .ok r1, .ok r2 => r1.statusCode = r2.statusCode ∧ r1.body = r2.body
  | _, _ => False

/-! ## Theorems -/

/-- C1: for every response with status code 200 and an arbitrary body byte
sequence, `FetchData` returns exactly those bytes and a nil error. -/
theorem fetchData_status200_roundtrip (client : HTTPClient) (resp : Response)
    (hget : client Endpoint = .ok resp) (hstatus : resp.statusCode = 200)
    (hread : resp.body.readErr = none) :
    FetchData.result client = (some resp.body.chunks, none) := by
  unfold FetchData.result FetchData
  rw [hget]
  simp [hstatus, StatusOK, BodyStream.readAll, hread]

/-- Witness for C1 at a concrete non-JSON body. -/
theorem fetchData_status200_roundtrip_witness :
    FetchData.result (cannedClient (.ok ⟨200, ⟨[0, 255, 91], none⟩,
      [("Content-Type", "application/json")]⟩)) = (some [0, 255, 91], none) :=
  fetchData_status200_roundtrip _ _ rfl rfl rfl

/-- C2: for every response whose status is not 200, `FetchData` returns nil
bytes and an error carrying exactly that numeric code, and never reads the
body stream. -/
theorem fetchData_badStatus (client : HTTPClient) (resp : Response)
    (hget : client Endpoint = .ok resp) (hstatus : resp.statusCode ≠ 200) :
    FetchData.result client = (none, some (GoError.base
        ("unexpected status code: " ++ toString resp.statusCode)))
    ∧ Event.readBody ∉ FetchData.trace client := by
  unfold FetchData.result FetchData.trace FetchData
  rw [hget]
  simp [StatusOK, hstatus]

/-- Witness for C2 at status 404. -/
theorem fetchData_badStatus_witness :
    FetchData.result (cannedClient (.ok ⟨404, ⟨[123], none⟩, []⟩)) =
      (none, some (GoError.base "unexpected status code: 404"))
    ∧ Event.readBody ∉ FetchData.trace (cannedClient (.ok ⟨404, ⟨[123], none⟩, []⟩)) :=
  fetchData_badStatus (cannedClient (.ok ⟨404, ⟨[123], none⟩, []⟩))
    ⟨404, ⟨[123], none⟩, []⟩ rfl (by decide)

/-- C3: for every failing transport, `FetchData` returns nil bytes and an
error whose message starts with the fetch-failure marker and whose unwrapped
cause is the original transport error; the trace shows the body is never
read nor closed. -/
theorem fetchData_transportFailure (client : HTTPClient) (e : GoError)
    (hget : client Endpoint = .error e) :
    (∃ err, FetchData.result client = (none, some err)
      ∧ err.msg = "failed to fetch data: " ++ e.msg
      ∧ err.unwrap = some e)
    ∧ FetchData.trace client = [Event.getCall Endpoint] := by
  unfold FetchData.result FetchData.trace FetchData
  rw [hget]
  exact ⟨⟨wrapErr "failed to fetch data: " e, rfl, rfl, rfl⟩, rfl⟩

/-- Witness for C3 at a concrete connection-refused error. -/
theorem fetchData_transportFailure_witness :
    (∃ err, FetchData.result (cannedClient (.error (.base "connection refused")))
        = (none, some err)
      ∧ err.msg = "failed to fetch data: " ++ (GoError.base "connection refused").msg
      ∧ err.unwrap = some (.base "connection refused"))
    ∧ FetchData.trace (cannedClient (.error (.base "connection refused")))
        = [Event.getCall Endpoint] :=
  fetchData_transportFailure _ _ rfl

/-- C4: for every status-200 response whose body read fails, `FetchData`
returns nil bytes and an error wrapping the read failure as its cause. -/
theorem fetchData_bodyReadFailure (client : HTTPClient) (resp : Response)
    (e : GoError) (hget : client Endpoint = .ok resp)
    (hstatus : resp.statusCode = 200) (hread : resp.body.readErr = some e) :
    ∃ err, FetchData.result client = (none, some err)
      ∧ err.msg = "failed to read response body: " ++ e.msg
      ∧ err.unwrap = some e := by
  unfold FetchData.result FetchData
  rw [hget]
  simp only [hstatus, StatusOK, ne_eq, not_true_eq_false, if_false,
    BodyStream.readAll, hread]
  exact ⟨wrapErr "failed to read response body: " e, rfl, rfl, rfl⟩

/-- Witness for C4 at a concrete truncated-stream error. -/
theorem fetchData_bodyReadFailure_witness :
    ∃ err, FetchData.result (cannedClient
        (.ok ⟨200, ⟨[10], some (.base "unexpected EOF")⟩, []⟩)) = (none, some err)
      ∧ err.msg = "failed to read response body: "
          ++ (GoError.base "unexpected EOF").msg
      ∧ err.unwrap = some (.base "unexpected EOF") :=
  fetchData_bodyReadFailure _ _ _ rfl rfl rfl

/-- C5: for every status-200 response with an empty body, `FetchData`
returns the zero-length byte sequence and a nil error. -/
theorem fetchData_emptyBody (client : HTTPClient) (resp : Response)
    (hget : client Endpoint = .ok resp) (hstatus : resp.statusCode = 200)
    (hbody : resp.body = ⟨[], none⟩) :
    FetchData.result client = (some [], none) := by
  unfold FetchData.result FetchData
  rw [hget]
  simp [hstatus, StatusOK, BodyStream.readAll, hbody]

/-- Witness for C5 at a concrete empty-body response. -/
theorem fetchData_emptyBody_witness :
    FetchData.result (cannedClient (.ok ⟨200, ⟨[], none⟩, []⟩))
      = (some [], none) :=
  fetchData_emptyBody _ _ rfl rfl rfl

/-- C6: for every transport, exactly one side of the returned pair is
populated: either the bytes are present and the error is absent, or the
bytes are absent and the error is present. -/
theorem fetchData_exclusive (client : HTTPClient) :
    ((FetchData.result client).1.isSome ∧ (FetchData.result client).2.isNone)
    ∨ ((FetchData.result client).1.isNone ∧ (FetchData.result client).2.isSome) := by
  unfold FetchData.result FetchData
  cases hc : client Endpoint with
  | error e => simp
  | ok resp =>
      by_cases hs : resp.statusCode ≠ StatusOK
      · simp [hs]
      · cases hr : resp.body.readAll with
        | error e => simp [hs, hr]
        | ok body => simp [hs, hr]

/-- C7: for every transport, the trace contains exactly one `Get`
invocation, and it targets the hardcoded HTTPS constant `Endpoint`. -/
theorem fetchData_singleGet (client : HTTPClient) :
    (FetchData.trace client).filter Event.isGet = [Event.getCall Endpoint]
    ∧ Endpoint = "https://jsonplaceholder.typicode.com/posts" := by
  refine ⟨?_, rfl⟩
  unfold FetchData.trace FetchData
  cases hc : client Endpoint with
  | error e => simp [Event.isGet]
  | ok resp =>
      by_cases hs : resp.statusCode ≠ StatusOK
      · simp [hs, Event.isGet]
      · cases hr : resp.body.readAll with
        | error e => simp [hs, hr, Event.isGet]
        | ok body => simp [hs, hr, Event.isGet]

/-- C8: the body stream is closed exactly once whenever `Get` succeeded,
on every exit path, and never closed when `Get` failed. -/
theorem fetchData_closeOnce (client : HTTPClient) :
    (FetchData.trace client).count Event.closeBody =
      match client Endpoint with
      | .ok _ => 1
      | .error _ => 0 := by
  unfold FetchData.trace FetchData
  cases hc : client Endpoint with
  | error e => simp
  | ok resp =>
      by_cases hs : resp.statusCode ≠ StatusOK
      · simp [hs, List.count]
      · cases hr : resp.body.readAll with
        | error e => simp [hs, hr, List.count]
        | ok body => simp [hs, hr, List.count]

/-- C9: repeated calls against the same canned transport outcome return
identical results: any two clients answering `Endpoint` identically give
identical `FetchData` outputs, so a second call against the same canned
response repeats the first. -/
theorem fetchData_idempotent (c1 c2 : HTTPClient)
    (h : c1 Endpoint = c2 Endpoint) :
    FetchData c1 = FetchData c2 := by
  unfold FetchData
  rw [h]

/-- Witness for C9: two calls on the same canned 200/empty response. -/
theorem fetchData_idempotent_witness :
    FetchData (cannedClient (.ok ⟨200, ⟨[], none⟩, []⟩))
      = FetchData (cannedClient (.ok ⟨200, ⟨[], none⟩, []⟩)) :=
  fetchData_idempotent _ _ rfl

/-- C10: the result depends only on the `Get` error, the status code and
the body stream: two transports agreeing on those three produce identical
results even when the responses differ in headers or any other field. -/
theorem fetchData_dependsOnlyOn (c1 c2 : HTTPClient)
    (h : getAgree (c1 Endpoint) (c2 Endpoint)) :
    FetchData c1 = FetchData c2 := by
  unfold FetchData
  cases h1 : c1 Endpoint with
  | error e1 =>
      cases h2 : c2 Endpoint with
      | error e2 =>
          rw [h1, h2] at h
          simp only [getAgree] at h
          rw [h]
      | ok r2 =>
          rw [h1, h2] at h
          simp [getAgree] at h
  | ok r1 =>
      cases h2 : c2 Endpoint with
      | error e2 =>
          rw [h1, h2] at h
          simp [getAgree] at h
      | ok r2 =>
          rw [h1, h2] at h
          simp only [getAgree] at h
          obtain ⟨hs, hb⟩ := h
          simp [hs, hb]

/-- Witness for C10: same error/status/body, different headers. -/
theorem fetchData_dependsOnlyOn_witness :
    FetchData (cannedClient (.ok ⟨200, ⟨[1, 2], none⟩, []⟩))
      = FetchData (cannedClient (.ok ⟨200, ⟨[1, 2], none⟩,
          [("Content-Type", "text/html")]⟩)) :=
  fetchData_dependsOnlyOn _ _ ⟨rfl, rfl⟩
